import Mathlib

/-!
Verification of the esptool-gui repository's discovery and flash-orchestration
engine.  The Python sources are shallowly embedded: each worker method becomes
a pure Lean function over explicit inputs (the file system as a lookup from
path to optional byte list, the device session as a record of outcome-valued
operations), and each run produces the trace of progress messages and device
calls it emits together with its terminal signal.  GUI rendering, Qt plumbing
and log coloring are elided; control flow, validation order, emitted
messages and the device-call sequence are kept faithful to the source.
-/

/-! ## String helpers (models of the Python primitives used by the sources) -/

/-- Bool test that the first list is an initial segment of the second. -/
def leadsList : List Char → List Char → Bool
  | [], _ => true
  | _ :: _, [] => false
  | a :: as, b :: bs => (a == b) && leadsList as bs

/-- Bool test that `needle` occurs contiguously inside `hay` (model of
Python's `in` operator on strings). -/
def subChars (needle : List Char) : List Char → Bool
  | [] => needle.isEmpty
  | c :: rest => leadsList needle (c :: rest) || subChars needle rest

/-- Model of Python `needle in hay` for strings. -/
def strContainsSub (hay needle : String) : Bool :=
  subChars needle.data hay.data

/-- Model of Python `str.lower()` (ASCII case folding). -/
def pyLower (s : String) : String :=
  String.mk (s.data.map Char.toLower)

/-- Model of Python `str.startswith(pre)`. -/
def pyStartsWith (s pre : String) : Bool :=
  leadsList pre.data s.data

/-- Whitespace recognised by the model of Python `str.strip()`. -/
def isSpaceChar (c : Char) : Bool :=
  (c == ' ') || (c == '\t') || (c == '\n') || (c == '\r')

/-- Model of Python `str.strip()`. -/
def pyStrip (s : String) : String :=
  String.mk (((s.data.dropWhile isSpaceChar).reverse.dropWhile isSpaceChar).reverse)

/-- Value of one hexadecimal digit. -/
def hexDigitVal (c : Char) : Option Nat :=
  if '0' ≤ c ∧ c ≤ '9' then some (c.toNat - 48)
  else if 'a' ≤ c ∧ c ≤ 'f' then some (c.toNat - 87)
  else if 'A' ≤ c ∧ c ≤ 'F' then some (c.toNat - 55)
  else none

/-- Fold a non-empty hexadecimal digit string to its value. -/
def parseHexDigits : List Char → Nat → Option Nat
  | [], _ => none
  | [c], acc => (hexDigitVal c).map (fun v => acc * 16 + v)
  | c :: rest, acc =>
    match hexDigitVal c with
    | some v => parseHexDigits rest (acc * 16 + v)
    | none => none

/-- Model of Python `int(s, 16)` on the address strings used by the GUI:
an optional `0x`/`0X` marker followed by hexadecimal digits.  `none` models
the `ValueError` the Python call raises on malformed input. -/
def parseHexInt (s : String) : Option Nat :=
  let cs := s.data
  let cs := if leadsList ['0', 'x'] cs ∨ leadsList ['0', 'X'] cs then cs.drop 2 else cs
  parseHexDigits cs 0

/-- Fold a decimal digit string to its value. -/
def parseDecDigits : List Char → Nat → Option Nat
  | [], _ => none
  | [c], acc => if c.isDigit then some (acc * 10 + (c.toNat - 48)) else none
  | c :: rest, acc =>
    if c.isDigit then parseDecDigits rest (acc * 10 + (c.toNat - 48)) else none

/-- Model of Python `int(s)` on the baud-rate strings used by the GUI:
a non-empty run of decimal digits.  `none` models the raised `ValueError`. -/
def pyIntDec (s : String) : Option Nat :=
  parseDecDigits s.data 0

/-- Upper-case hexadecimal digit for a value below 16. -/
def hexDigitU (n : Nat) : Char :=
  if n < 10 then Char.ofNat (48 + n) else Char.ofNat (55 + n)

/-- Model of Python `"%02X" % b` for one MAC byte. -/
def byteHex (b : Nat) : String :=
  String.mk [hexDigitU ((b / 16) % 16), hexDigitU (b % 16)]

/-- Model of `":".join("%02X" % b for b in mac)`. -/
def macStr (mac : List Nat) : String :=
  String.intercalate ":" (mac.map byteHex)

/-! ## Port enumeration (src/mainw.py and src/sa/mainw.py) -/

/-- One entry of `serial.tools.list_ports.comports()`: the fields the
sources read. -/
structure SerialPort where
  device : String
  hwid : String
  description : String
deriving DecidableEq

/-- `ESPRESSIF_VIDS` of src/mainw.py: known vendor-id strings with their
display labels (insertion order of the Python dict). -/
def ESPRESSIF_VIDS : List (String × String) :=
  [("10C4", "Silicon Labs CP210x"),
   ("303A", "Espressif USB JTAG/serial debug"),
   ("1A86", "QinHeng Electronics CH34x"),
   ("0403", "FTDI")]

/-- `mainw.list_valid_ports` of src/mainw.py: for each port, the first known
vendor id that occurs in its hardware-id string selects it, and the returned
entry is the formatted description (the logging side channel is elided). -/
def list_valid_ports (ports : List SerialPort) : List String :=
  ports.filterMap (fun p =>
    (ESPRESSIF_VIDS.find? (fun v => strContainsSub p.hwid v.1)).map
      (fun v => p.device ++ " (" ++ v.2 ++ ")"))

/-- `mainw.list_valid_ports` of src/sa/mainw.py: keep the device names of
ports whose hardware id contains any known vendor id. -/
def list_valid_ports_sa (ports : List SerialPort) : List String :=
  (ports.filter (fun p => ESPRESSIF_VIDS.any (fun v => strContainsSub p.hwid v.1))).map
    (fun p => p.device)

/-! ## Discovery probes and coordinators -/

/-- Outcomes a probe of src/mainw.py `try_detect_chip` can see: `detect`
models `esptool.detect_chip` (error = raised exception, success carries
`chip.CHIP_NAME`), `readMac` models the subsequent `chip.read_mac()`. -/
structure ProbeDev where
  detect : Except String String
  readMac : Except String (List Nat)

/-- `mainw.try_detect_chip` of src/mainw.py (same control flow in
src/sa/mainw.py): returns the `(success, text)` pair together with the
number of times `chip._port.close()` ran.  The close sits at the end of the
`try` body, so any exception skips it; log emissions are elided. -/
def try_detect_chip (port : String) (d : ProbeDev) : (Bool × String) × Nat :=
  match d.detect with
  | Except.error e => ((false, e), 0)
  | Except.ok chipName =>
    match d.readMac with
    | Except.error e => ((false, e), 0)
    | Except.ok mac =>
      ((true, port ++ " - " ++ chipName ++ " - " ++ macStr mac), 1)

/-- `mainw.detect_chips` of src/mainw.py, with the probe abstracted as a
function of port and baud.  Besides the detected descriptions it returns
the trace of `(port, baud)` probe attempts in call order. -/
def detect_chips (probe : String → Nat → Bool × String) :
    List String → List String × List (String × Nat)
  | [] => ([], [])
  | p :: rest =>
    let r1 := probe p 115200
    let next := detect_chips probe rest
    if r1.1 then
      (r1.2 :: next.1, (p, 115200) :: next.2)
    else
      let r2 := probe p 921600
      if r2.1 then
        (r2.2 :: next.1, (p, 115200) :: (p, 921600) :: next.2)
      else
        (next.1, (p, 115200) :: (p, 921600) :: next.2)

/-- Outcomes a probe of src/src/main.py `DetectWorker.try_detect_chip` can
see: `detect` models `detect_chip` returning a handle, `connect` the
`esp.connect()` call, `describe` the `esp.get_chip_description()` call. -/
structure MProbeDev where
  detect : Except String Unit
  connect : Except String Unit
  describe : Except String String

/-- `DetectWorker.try_detect_chip` of src/src/main.py: the `finally` block
closes the handle whenever `detect_chip` produced one, on every outcome.
The returned number counts `esp.close()` invocations. -/
def m_try_detect_chip (d : MProbeDev) : (Bool × String) × Nat :=
  match d.detect with
  | Except.error e => ((false, e), 0)
  | Except.ok _ =>
    match d.connect with
    | Except.error e => ((false, e), 1)
    | Except.ok _ =>
      match d.describe with
      | Except.error e => ((false, e), 1)
      | Except.ok chipName => ((true, chipName), 1)

/-- `target_chips` of src/src/main.py. -/
def target_chips : List String :=
  ["Any", "ESP32", "ESP8266", "ESP32C2", "ESP32C3 / ESP8685", "ESP32C5",
   "ESP32C6", "ESP32C61", "ESP32H2 / ESP8684", "ESP32P4", "ESP32S2", "ESP32S3"]

/-- Inner loop of `DetectWorker.run` for the "Any" target: one
`try_detect_chip(port, 115200, chip)` call per candidate chip type, stopping
at the first success.  The probe result depends only on port and baud, as in
the source, whose `chip_type` argument is never read. -/
def tryChips (probe : String → Nat → Bool × String) (port : String) :
    List String → Option (String × String)
  | [] => none
  | _ :: rest =>
    let r := probe port 115200
    if r.1 then some (port, r.2) else tryChips probe port rest

/-- `DetectWorker.run` of src/src/main.py with the cancellation flag unset:
the list of `(port, chip_name)` pairs later emitted through `detected_chip`.
For a concrete target chip the probe runs once per port at baud 115200 and
every success is kept — the target never filters the result. -/
def detectWorkerRun (targetChip : String) (probe : String → Nat → Bool × String)
    (ports : List String) : List (String × String) :=
  ports.filterMap (fun p =>
    if targetChip = "Any" then
      tryChips probe p (target_chips.drop 1)
    else
      let r := probe p 115200
      if r.1 then some (p, r.2) else none)

/-- What `DeviceSearchWorker.run` of src/src/esptool-gui.py emits: the
`device_found` payload if any, the progress messages, the number of
`esp.disconnect()` calls, and whether `finished` fired. -/
structure SearchResult where
  found : Option (String × String × String)
  progress : List String
  disconnects : Nat
  finishedEmitted : Bool
deriving DecidableEq

/-- Chip-info line built by `DeviceSearchWorker.run`. -/
def chipInfoStr (port chipName : String) (mac : List Nat) : String :=
  port ++ " - " ++ chipName ++ " (MAC: " ++ macStr mac ++ ")"

/-- `DeviceSearchWorker.run` of src/src/esptool-gui.py.  `probe` bundles
`detect_chip` + `get_chip_description` + `read_mac` (an error anywhere in
that prefix lands in the `except` arm, skipping `esp.disconnect()`).  The
constructor lowers the target unless it is "Any", and a set filter admits a
device exactly when the lowered target occurs in the lowered chip name;
a non-matching device yields only the informational progress note. -/
def searchRun (port targetChip : String)
    (probe : Except String (String × List Nat)) : SearchResult :=
  let target : Option String :=
    if targetChip = "Any" then none else some (pyLower targetChip)
  match probe with
  | Except.error e =>
    ⟨none, ["Error on port " ++ port ++ " - Not an ESP device (" ++ e ++ ")"], 0, true⟩
  | Except.ok (chipName, mac) =>
    let info := chipInfoStr port chipName mac
    match target with
    | none =>
      ⟨some (port, info, chipName), ["Found matching ESP device: " ++ info], 1, true⟩
    | some t =>
      if strContainsSub (pyLower chipName) t then
        ⟨some (port, info, chipName), ["Found matching ESP device: " ++ info], 1, true⟩
      else
        ⟨none, ["Found non-matching ESP device: " ++ info], 1, true⟩

/-! ## Flash pipeline (src/src/esptool-gui.py FlashWorker) -/

/-- One entry of the `tasks` list handed to `FlashWorker`: `bin_path` and
`address` (a hex string). -/
structure FlashTask where
  bin_path : String
  address : String
deriving DecidableEq

/-- One device I/O call issued by `FlashWorker.run`, in the order and with
the arguments of the source (`write_flash` receives `flash_size.lower()`,
`flash_mode` and `flash_freq` as keywords). -/
inductive Call where
  | eraseRegion (addr len : Nat)
  | writeFlash (addr : Nat) (data : List Nat) (size mode freq : String)
  | verifyFlash (addr : Nat) (data : List Nat)
  | hardReset
deriving DecidableEq

/-- Behaviour of the device session as `FlashWorker.run` sees it: `detect`
models `esptool.cmds.detect_chip` together with the `None` check and
`get_chip_description` (returning `None` is the error
"No ESP device detected"), `connect` models `esp.connect()`, and `step`
gives each erase/write/verify/reset call its outcome (`error` = raised
exception with its message). -/
structure Device where
  detect : Except String String
  connect : Except String Unit
  step : Call → Except String Unit

/-- Everything a `FlashWorker.run` execution emits: progress messages in
order, device calls in order, and the `finished` signal payload. -/
structure RunResult where
  progress : List String
  calls : List Call
  finished : Bool × String
deriving DecidableEq

/-- The per-task progress header of `FlashWorker.run`. -/
def taskHeader (idx : Nat) (t : FlashTask) : String :=
  "\n-- Task " ++ toString idx ++ ": Flashing file " ++ t.bin_path ++
    " at address " ++ t.address ++ " --"

/-- Message of the `ValueError` raised by `int(addr, 16)` on a malformed
address (quotes of the Python message elided). -/
def hexError (s : String) : String :=
  "invalid literal for int() with base 16: " ++ s

/-- The task loop of `FlashWorker.run` (src/src/esptool-gui.py lines 79-99),
given the file system `fs` (path to optional contents) and the flash
parameters of the worker.  Returns the progress messages, the device calls,
and `some msg` when an exception aborted the loop.  Per task: parse the
address, emit the header, check the file, read it, then erase, write and
verify, each preceded by its progress message; the first raised exception
stops everything. -/
def runTasks (dev : Device) (fs : String → Option (List Nat))
    (size mode freq : String) :
    Nat → List FlashTask → List String × List Call × Option String
  | _, [] => ([], [], none)
  | idx, t :: rest =>
    match parseHexInt t.address with
    | none => ([], [], some (hexError t.address))
    | some a =>
      let hdr := taskHeader idx t
      match fs t.bin_path with
      | none => ([hdr], [], some ("Firmware file " ++ t.bin_path ++ " does not exist!"))
      | some b =>
        match dev.step (Call.eraseRegion a b.length) with
        | Except.error e =>
          ([hdr, "Erasing flash region..."], [Call.eraseRegion a b.length], some e)
        | Except.ok _ =>
          match dev.step (Call.writeFlash a b (pyLower size) mode freq) with
          | Except.error e =>
            ([hdr, "Erasing flash region...", "Writing flash..."],
             [Call.eraseRegion a b.length, Call.writeFlash a b (pyLower size) mode freq],
             some e)
          | Except.ok _ =>
            match dev.step (Call.verifyFlash a b) with
            | Except.error e =>
              ([hdr, "Erasing flash region...", "Writing flash...", "Verifying flash..."],
               [Call.eraseRegion a b.length,
                Call.writeFlash a b (pyLower size) mode freq,
                Call.verifyFlash a b],
               some e)
            | Except.ok _ =>
              let next := runTasks dev fs size mode freq (idx + 1) rest
              (hdr :: "Erasing flash region..." :: "Writing flash..." ::
                 "Verifying flash..." :: next.1,
               Call.eraseRegion a b.length ::
                 Call.writeFlash a b (pyLower size) mode freq ::
                 Call.verifyFlash a b :: next.2.1,
               next.2.2)

/-- `FlashWorker.run` of src/src/esptool-gui.py: detect the chip, connect,
run the task loop, then on success emit the completion message, hard-reset
and signal `finished(True, "Success")`; any exception lands in the `except`
arm, which emits and signals `Error during flashing: <msg>`. -/
def run (dev : Device) (fs : String → Option (List Nat))
    (size mode freq : String) (tasks : List FlashTask) : RunResult :=
  match dev.detect with
  | Except.error e =>
    let msg := "Error during flashing: " ++ e
    ⟨[msg], [], (false, msg)⟩
  | Except.ok desc =>
    match dev.connect with
    | Except.error e =>
      let msg := "Error during flashing: " ++ e
      ⟨["Detected chip: " ++ desc, msg], [], (false, msg)⟩
    | Except.ok _ =>
      let r := runTasks dev fs size mode freq 1 tasks
      match r.2.2 with
      | some e =>
        let msg := "Error during flashing: " ++ e
        ⟨("Detected chip: " ++ desc) :: r.1 ++ [msg], r.2.1, (false, msg)⟩
      | none =>
        match dev.step Call.hardReset with
        | Except.error e =>
          let msg := "Error during flashing: " ++ e
          ⟨("Detected chip: " ++ desc) :: r.1 ++
             ["All flash operations completed successfully!", msg],
           r.2.1 ++ [Call.hardReset], (false, msg)⟩
        | Except.ok _ =>
          ⟨("Detected chip: " ++ desc) :: r.1 ++
             ["All flash operations completed successfully!"],
           r.2.1 ++ [Call.hardReset], (true, "Success")⟩

/-- The erase/write/verify triple `FlashWorker.run` issues for a task whose
address parses and whose file exists (otherwise nothing is issued). -/
def plannedCalls (fs : String → Option (List Nat)) (size mode freq : String)
    (t : FlashTask) : List Call :=
  match parseHexInt t.address, fs t.bin_path with
  | some a, some b =>
    [Call.eraseRegion a b.length,
     Call.writeFlash a b (pyLower size) mode freq,
     Call.verifyFlash a b]
  | _, _ => []

/-- A task whose address parses, whose file exists, and whose three device
steps succeed. -/
def taskOk (dev : Device) (fs : String → Option (List Nat))
    (size mode freq : String) (t : FlashTask) : Prop :=
  ∃ a b, parseHexInt t.address = some a ∧ fs t.bin_path = some b ∧
    dev.step (Call.eraseRegion a b.length) = Except.ok () ∧
    dev.step (Call.writeFlash a b (pyLower size) mode freq) = Except.ok () ∧
    dev.step (Call.verifyFlash a b) = Except.ok ()

/-- Progress messages of a run of consecutive successful tasks starting at
index `idx`. -/
def okProgress (idx : Nat) : List FlashTask → List String
  | [] => []
  | t :: rest =>
    taskHeader idx t :: "Erasing flash region..." :: "Writing flash..." ::
      "Verifying flash..." :: okProgress (idx + 1) rest

/-! ## Plan validation (src/src/esptool-gui.py ESPFlasher.start_flashing_adv) -/

/-- A fixed main slot of the Advanced tab: the file edit and address edit
contents. -/
structure FixedSlot where
  file_edit : String
  addr_edit : String
deriving DecidableEq

/-- An additional slot of the Advanced tab: its enable checkbox and edits. -/
structure ExtraSlot where
  enabled : Bool
  file_edit : String
  addr_edit : String
deriving DecidableEq

/-- Validation of one fixed slot inside `start_flashing_adv` (lines
587-596): strip both edits, reject an empty file path, reject an address
that does not start with "0x", else yield the task. -/
def validateFixed (name : String) (s : FixedSlot) : Except String FlashTask :=
  let fp := pyStrip s.file_edit
  let ad := pyStrip s.addr_edit
  if fp = "" then Except.error ("Error: " ++ name ++ " file not selected!")
  else if !(pyStartsWith ad "0x") then
    Except.error ("Error: " ++ name ++ " has invalid flash address format!")
  else Except.ok ⟨fp, ad⟩

/-- Validation of the additional slots (lines 598-608): the slot number
advances for every widget, enabled or not, and only enabled slots are
checked and collected. -/
def validateExtras : Nat → List ExtraSlot → Except String (List FlashTask)
  | _, [] => Except.ok []
  | idx, w :: rest =>
    if w.enabled then
      let fp := pyStrip w.file_edit
      let ad := pyStrip w.addr_edit
      if fp = "" then
        Except.error ("Error: Slot " ++ toString idx ++ " enabled but no file selected!")
      else if !(pyStartsWith ad "0x") then
        Except.error ("Error: Slot " ++ toString idx ++ " has invalid flash address format!")
      else
        match validateExtras (idx + 1) rest with
        | Except.error e => Except.error e
        | Except.ok ts => Except.ok (⟨fp, ad⟩ :: ts)
    else validateExtras (idx + 1) rest

/-- `ESPFlasher.start_flashing_adv` of src/src/esptool-gui.py up to the
worker start: reject when no device is selected, validate the three fixed
slots then the enabled extra slots, and return the task list the started
`FlashWorker` receives.  No `Device` value is consulted: every check runs
before any device I/O. -/
def start_flashing_adv (portText : String) (app partTable boot : FixedSlot)
    (extras : List ExtraSlot) : Except String (List FlashTask) :=
  if portText = "" then Except.error "Error: No device selected (Advanced)!"
  else
    match validateFixed "App" app with
    | Except.error e => Except.error e
    | Except.ok t1 =>
      match validateFixed "Partition Table" partTable with
      | Except.error e => Except.error e
      | Except.ok t2 =>
        match validateFixed "Bootloader" boot with
        | Except.error e => Except.error e
        | Except.ok t3 =>
          match validateExtras 4 extras with
          | Except.error e => Except.error e
          | Except.ok more => Except.ok (t1 :: t2 :: t3 :: more)

/-! ## Single-file flash worker (src/src/main.py FlashWorker / EraseWorker) -/

/-- Outcomes the src/src/main.py workers can see: `detect` models
`detect_chip` (the handle is assigned exactly when it succeeds), `connect`
models `esp.connect()`, and `body` the work after connection (parameter
setting, file read and `write_flash` for `FlashWorker`; `erase_flash` for
`EraseWorker`). -/
structure MDevice where
  detect : Except String Unit
  connect : Except String Unit
  body : Except String Unit

/-- What a src/src/main.py worker run leaves behind: the number of
`esp.close()` calls, the `error_signal` emissions (traceback text elided),
and whether `finished_signal` fired. -/
structure MRunResult where
  closes : Nat
  errors : List String
  finishedOk : Bool
deriving DecidableEq

/-- `FlashWorker.run` of src/src/main.py (lines 193-220; `EraseWorker.run`
has the same shape): `connect_to_chip` failing returns early — before the
`try`/`finally` — so neither a failed `detect_chip` (no handle) nor a
failed `esp.connect()` (handle assigned) reaches the close; once connected,
the `finally` closes the handle exactly once on success and on failure. -/
def m_flash_run (d : MDevice) : MRunResult :=
  match d.detect with
  | Except.error e => ⟨0, ["Connection failed: " ++ e], false⟩
  | Except.ok _ =>
    match d.connect with
    | Except.error e => ⟨0, ["Connection failed: " ++ e], false⟩
    | Except.ok _ =>
      match d.body with
      | Except.error e => ⟨1, ["Flashing failed: " ++ e], false⟩
      | Except.ok _ => ⟨1, [], true⟩

/-! ## Operation start and mutual exclusion (src/src/main.py MainFrame) -/

/-- The `MainFrame` state relevant to starting operations: the enabled
state of the three operation buttons, whether a worker thread is live, and
how many worker threads were ever started. -/
structure UiState where
  flashEnabled : Bool
  eraseEnabled : Bool
  detectEnabled : Bool
  workerActive : Bool
  workersStarted : Nat
deriving DecidableEq

/-- `MainFrame.toggle_buttons`. -/
def toggle_buttons (s : UiState) (enable : Bool) : UiState :=
  { s with flashEnabled := enable, eraseEnabled := enable, detectEnabled := enable }

/-- `MainFrame.run_worker` (lines 435-446): disable the buttons, create a
fresh worker thread and start it.  It inspects no busy state. -/
def run_worker (s : UiState) : UiState :=
  let s := toggle_buttons s false
  { s with workerActive := true, workersStarted := s.workersStarted + 1 }

/-- `MainFrame.start_flash` (lines 408-424): validate the port and file
fields, then hand off to `run_worker`; the message boxes are elided. -/
def start_flash (s : UiState) (port filePath : String) : UiState :=
  if pyStrip port = "" then s
  else if pyStrip filePath = "" then s
  else run_worker s

/-- `MainFrame.start_erase` (lines 426-433). -/
def start_erase (s : UiState) (port : String) : UiState :=
  if pyStrip port = "" then s else run_worker s

/-- A click of the flash button, as Qt delivers it: the connected slot
`start_flash` only runs while `pushButton_flash` is enabled. -/
def clickFlash (s : UiState) (port filePath : String) : UiState :=
  if s.flashEnabled then start_flash s port filePath else s

/-- `MainFrame.handle_success`: status update elided; the worker thread is
cleaned up and the buttons re-enabled. -/
def handle_success (s : UiState) : UiState :=
  toggle_buttons { s with workerActive := false } true

/-! ## Parameter resolution (src/src/main.py MainFrame.resolve_parameter) -/

/-- `chip_defaults` of src/src/main.py: per-chip default parameters, keyed
by chip name then parameter name. -/
def chip_defaults : List (String × List (String × String)) :=
  [("Any",
    [("baud_rate", "115200"), ("flash_freq", "80m"), ("flash_mode", "DIO"), ("flash_size", "4MB")]),
   ("ESP32",
    [("baud_rate", "115200"), ("flash_freq", "80m"), ("flash_mode", "DIO"), ("flash_size", "4MB")]),
   ("ESP8266",
    [("baud_rate", "115200"), ("flash_freq", "80m"), ("flash_mode", "DIO"), ("flash_size", "4MB")]),
   ("ESP32C2",
    [("baud_rate", "115200"), ("flash_freq", "40m"), ("flash_mode", "QIO"), ("flash_size", "2MB")]),
   ("ESP32C3 / ESP8685",
    [("baud_rate", "115200"), ("flash_freq", "80m"), ("flash_mode", "DIO"), ("flash_size", "4MB")]),
   ("ESP32C5",
    [("baud_rate", "115200"), ("flash_freq", "80m"), ("flash_mode", "DIO"), ("flash_size", "4MB")]),
   ("ESP32C6",
    [("baud_rate", "115200"), ("flash_freq", "80m"), ("flash_mode", "DIO"), ("flash_size", "4MB")]),
   ("ESP32C61",
    [("baud_rate", "115200"), ("flash_freq", "80m"), ("flash_mode", "DIO"), ("flash_size", "4MB")]),
   ("ESP32H2 / ESP8684",
    [("baud_rate", "115200"), ("flash_freq", "80m"), ("flash_mode", "DIO"), ("flash_size", "4MB")]),
   ("ESP32P4",
    [("baud_rate", "115200"), ("flash_freq", "80m"), ("flash_mode", "DIO"), ("flash_size", "4MB")]),
   ("ESP32S2",
    [("baud_rate", "115200"), ("flash_freq", "80m"), ("flash_mode", "DIO"), ("flash_size", "4MB")]),
   ("ESP32S3",
    [("baud_rate", "115200"), ("flash_freq", "80m"), ("flash_mode", "DIO"), ("flash_size", "4MB")])]

/-- Model of Python `d.get(k)` on a string dict. -/
def dictGet (d : List (String × String)) (k : String) : Option String :=
  (d.find? (fun kv => kv.1 == k)).map (fun kv => kv.2)

/-- `chip_defaults[chip].get(param)`.  A chip outside the table yields
`none` (the source would raise `KeyError` on the outer lookup; every chip
the UI offers is in the table). -/
def chipDefaultGet (chip param : String) : Option String :=
  match chip_defaults.find? (fun kv => kv.1 == chip) with
  | some kv => dictGet kv.2 param
  | none => none

/-- The loop of `resolve_parameter` for the "Any" target: first chip in
`target_chips[1:]` whose default for the parameter is truthy (present and
non-empty); "Keep" if none is. -/
def anyChipDefault (param : String) : List String → String
  | [] => "Keep"
  | chip :: rest =>
    match chipDefaultGet chip param with
    | some d => if d ≠ "" then d else anyChipDefault param rest
    | none => anyChipDefault param rest

/-- `MainFrame.resolve_parameter` of src/src/main.py (lines 395-406), with
the combo-box value and selected target chip as explicit inputs. -/
def resolve_parameter (comboValue selectedChip param : String) : String :=
  if comboValue = "Keep" then
    if selectedChip = "Any" then anyChipDefault param (target_chips.drop 1)
    else (chipDefaultGet selectedChip param).getD "Keep"
  else comboValue

/-! ## Theorems -/

/-- C5: every entry of a vendor-filtered port list comes from a port whose
hardware id contains a vendor id of the known-vendor table, in both the
src/mainw.py and the src/sa/mainw.py variant; a port whose hardware id
matches none of the known vendor ids contributes nothing to the result. -/
theorem c5_vendor_filter (ports : List SerialPort) :
    (∀ d ∈ list_valid_ports ports, ∃ p, p ∈ ports ∧
        ∃ v, v ∈ ESPRESSIF_VIDS ∧ strContainsSub p.hwid v.1 = true ∧
          d = p.device ++ " (" ++ v.2 ++ ")") ∧
    (∀ d ∈ list_valid_ports_sa ports, ∃ p, p ∈ ports ∧
        ESPRESSIF_VIDS.any (fun v => strContainsSub p.hwid v.1) = true ∧
        d = p.device) := by
  constructor
  · intro d hd
    simp only [list_valid_ports, List.mem_filterMap] at hd
    obtain ⟨p, hp, hfind⟩ := hd
    rw [Option.map_eq_some'] at hfind
    obtain ⟨v, hv, hdesc⟩ := hfind
    refine ⟨p, hp, v, List.mem_of_find?_eq_some hv, ?_, hdesc.symm⟩
    simpa using List.find?_some hv
  · intro d hd
    simp only [list_valid_ports_sa, List.mem_map, List.mem_filter] at hd
    obtain ⟨p, ⟨hp, hmatch⟩, hdev⟩ := hd
    exact ⟨p, hp, hmatch, hdev.symm⟩

/-- Concrete ports for the C5 witness: one matching, one unknown vendor. -/
def c5Ports : List SerialPort :=
  [⟨"COM3", "USB VID:PID=10C4:EA60 SER=0001", "CP210x"⟩,
   ⟨"COM4", "USB VID:PID=1234:5678 SER=0002", "other"⟩]

/-- Witness for C5 at a concrete port list. -/
theorem c5_vendor_filter_witness :
    "COM3 (Silicon Labs CP210x)" ∈ list_valid_ports c5Ports ∧
    (∃ p, p ∈ c5Ports ∧
      ∃ v, v ∈ ESPRESSIF_VIDS ∧ strContainsSub p.hwid v.1 = true ∧
        "COM3 (Silicon Labs CP210x)" = p.device ++ " (" ++ v.2 ++ ")") :=
  ⟨by decide, (c5_vendor_filter c5Ports).1 _ (by decide)⟩

/-- C7: `mainw.detect_chips` of src/mainw.py probes each candidate port
first at 115200 and, exactly when that attempt fails, once more at 921600
(its probes never constrain this retry), and a port contributes a detected
entry exactly when one of the two attempts succeeds.  The src/src/main.py
variant constrains its probes to one connect attempt and probes only at
115200, which the claim's retry proviso sets aside. -/
theorem c7_baud_fallback (probe : String → Nat → Bool × String)
    (ports : List String) :
    detect_chips probe ports =
      (ports.filterMap (fun p =>
          if (probe p 115200).1 then some (probe p 115200).2
          else if (probe p 921600).1 then some (probe p 921600).2 else none),
       ports.flatMap (fun p =>
          if (probe p 115200).1 then [(p, 115200)]
          else [(p, 115200), (p, 921600)])) := by
  induction ports with
  | nil => rfl
  | cons p rest ih =>
    simp only [detect_chips, List.filterMap_cons, List.flatMap_cons, ih]
    cases h1 : (probe p 115200).1
    · cases h2 : (probe p 921600).1 <;> simp [h1, h2]
    · simp [h1]

/-- C8 counterexample: with a flash pipeline already active, a further
`start_flash` with valid inputs starts a second worker (and hence a second
device session) instead of being rejected with a Busy error — the source
has no busy check and no Busy error at all. -/
theorem c8_counterexample :
    (start_flash ⟨true, true, true, false, 0⟩ "COM3" "app.bin").workerActive = true ∧
    (start_flash (start_flash ⟨true, true, true, false, 0⟩ "COM3" "app.bin")
        "COM3" "app.bin").workersStarted = 2 := by
  decide

/-- C8 (amended): starting a worker disables the operation buttons, so a
further flash-button click while a pipeline is active reaches no
`start_flash` call and starts no second worker; the buttons are only
re-enabled by the completion handlers.  No Busy error exists, and a direct
`start_flash` invocation while one is active would start a second worker. -/
theorem c8_busy_via_buttons (s : UiState) (port filePath : String) :
    (run_worker s).flashEnabled = false ∧
    clickFlash (run_worker s) port filePath = run_worker s := by
  refine ⟨rfl, ?_⟩
  simp [clickFlash, run_worker, toggle_buttons]

/-- C9 counterexample: a src/mainw.py probe whose MAC read fails after a
successful `detect_chip` terminates through the `except` arm with zero
`chip._port.close()` calls — the close sits at the end of the `try` body,
so this outcome leaves the session open. -/
theorem c9_counterexample :
    try_detect_chip "COM3" ⟨Except.ok "ESP32", Except.error "mac read timeout"⟩ =
      ((false, "mac read timeout"), 0) := rfl

/-- C9 (amended): in src/src/main.py, `DetectWorker.try_detect_chip` closes
the session handle exactly once on every outcome in which `detect_chip`
produced a handle (success, chip-filter-independent identification failure,
or connection error), via its `finally` block; the src/mainw.py,
src/sa/mainw.py and src/src/esptool-gui.py probes close only on their
non-exception paths, so an error after a successful detect leaves the
session open there. -/
theorem c9_probe_closes (d : MProbeDev) (h : d.detect = Except.ok ()) :
    (m_try_detect_chip d).2 = 1 := by
  obtain ⟨dd, dc, ds⟩ := d
  simp only at h
  subst h
  cases dc <;> cases ds <;> rfl

/-- Witness for C9 (amended): a probe whose connect fails after a
successful detect still closes once. -/
theorem c9_probe_closes_witness :
    (MProbeDev.mk (Except.ok ()) (Except.error "timeout") (Except.ok "ESP32")).detect =
      Except.ok () ∧
    (m_try_detect_chip
        (MProbeDev.mk (Except.ok ()) (Except.error "timeout") (Except.ok "ESP32"))).2 = 1 :=
  ⟨rfl, c9_probe_closes _ rfl⟩

/-- C3 counterexample: a src/src/main.py pipeline execution in which
`detect_chip` succeeds but `esp.connect()` fails returns control with zero
`esp.close()` calls — `connect_to_chip` returns `False` before the
`try`/`finally` is entered, so this exit branch closes nothing (and the
src/src/esptool-gui.py `FlashWorker.run` contains no close on any branch). -/
theorem c3_counterexample :
    m_flash_run ⟨Except.ok (), Except.error "Timed out waiting for packet header",
        Except.ok ()⟩ =
      ⟨0, ["Connection failed: Timed out waiting for packet header"], false⟩ := rfl

/-- C3 (amended): in src/src/main.py, once the connect phase has fully
succeeded the session handle is closed exactly once before control
returns, on the success exit and on every failure of the flash body alike;
a `connect()` failure after a successful detect leaves the handle
unclosed, and the esptool-gui variant's pipeline never closes it. -/
theorem c3_close_once_after_connect (d : MDevice)
    (hd : d.detect = Except.ok ()) (hc : d.connect = Except.ok ()) :
    (m_flash_run d).closes = 1 := by
  obtain ⟨dd, dc, db⟩ := d
  simp only at hd hc
  subst hd
  subst hc
  cases db <;> rfl

/-- Witness for C3 (amended): a fully connected run whose body fails still
closes exactly once. -/
theorem c3_close_once_after_connect_witness :
    (MDevice.mk (Except.ok ()) (Except.ok ()) (Except.error "write error")).detect =
      Except.ok () ∧
    (MDevice.mk (Except.ok ()) (Except.ok ()) (Except.error "write error")).connect =
      Except.ok () ∧
    (m_flash_run (MDevice.mk (Except.ok ()) (Except.ok ())
        (Except.error "write error"))).closes = 1 :=
  ⟨rfl, rfl, c3_close_once_after_connect _ rfl rfl⟩

/-- C10: for every chip the target combo offers (the "Any" entry included),
resolving the baud-rate parameter from the "Keep" sentinel yields a decimal
numeric string, so the `int(...)` conversions in `start_flash` and
`start_erase` cannot raise; for "Any" the loop stops at the first listed
chip (`target_chips[1] = "ESP32"`) and returns its default, 115200. -/
theorem c10_resolve_baud (chip : String) (h : chip ∈ target_chips) :
    (pyIntDec (resolve_parameter "Keep" chip "baud_rate")).isSome = true ∧
    resolve_parameter "Keep" "Any" "baud_rate" = "115200" ∧
    target_chips[1]? = some "ESP32" ∧
    chipDefaultGet "ESP32" "baud_rate" = some "115200" := by
  have hall : ∀ c ∈ target_chips,
      (pyIntDec (resolve_parameter "Keep" c "baud_rate")).isSome = true := by decide
  exact ⟨hall chip h, by decide, by decide, by decide⟩

/-- Witness for C10 at a concrete chip selection. -/
theorem c10_resolve_baud_witness :
    "ESP32S3" ∈ target_chips ∧
    (pyIntDec (resolve_parameter "Keep" "ESP32S3" "baud_rate")).isSome = true :=
  ⟨by decide, (c10_resolve_baud "ESP32S3" (by decide)).1⟩

/-- C6 counterexample: in src/src/main.py, a discovery run with chip filter
"ESP32S3" over a port whose probe identifies "ESP8266" still emits that
device — `DetectWorker.run` appends every successful probe result and
`try_detect_chip` never reads its chip-type argument, so the filter is not
applied to the detected model ("esp8266" does not contain "esp32s3"). -/
theorem c6_counterexample :
    detectWorkerRun "ESP32S3" (fun _ _ => (true, "ESP8266")) ["COM3"] =
      [("COM3", "ESP8266")] ∧
    strContainsSub (pyLower "ESP8266") (pyLower "ESP32S3") = false := by
  decide

/-- C6 (amended): in the src/src/esptool-gui.py `DeviceSearchWorker`, a
discovery run with a chip-type filter set never emits a `device_found`
whose chip name does not case-insensitively contain the filter, and a
probe identifying a non-matching chip discards the result and emits only
the informational "Found non-matching ESP device" progress note; the
src/src/main.py `DetectWorker` does not apply its filter to the detected
result and emits non-matching devices. -/
theorem c6_search_filter (port targetChip : String)
    (probe : Except String (String × List Nat)) (h : targetChip ≠ "Any") :
    (∀ p i n, (searchRun port targetChip probe).found = some (p, i, n) →
        strContainsSub (pyLower n) (pyLower targetChip) = true) ∧
    (∀ chipName mac, probe = Except.ok (chipName, mac) →
        strContainsSub (pyLower chipName) (pyLower targetChip) = false →
        (searchRun port targetChip probe).found = none ∧
        (searchRun port targetChip probe).progress =
          ["Found non-matching ESP device: " ++ chipInfoStr port chipName mac]) := by
  constructor
  · intro p i n hf
    cases probe with
    | error e => simp [searchRun] at hf
    | ok val =>
      obtain ⟨chipName, mac⟩ := val
      by_cases hm : strContainsSub (pyLower chipName) (pyLower targetChip) = true
      · simp only [searchRun, if_neg h, hm, if_true] at hf
        simp only [Option.some.injEq, Prod.mk.injEq] at hf
        obtain ⟨hp, hi, hn⟩ := hf
        exact hn ▸ hm
      · rw [Bool.not_eq_true] at hm
        simp [searchRun, if_neg h, hm] at hf
  · intro chipName mac hok hm
    subst hok
    simp [searchRun, if_neg h, hm]

/-- Witness for C6 (amended): a probe identifying a chip that does not
contain the filter is discarded with only the informational note. -/
theorem c6_search_filter_witness :
    ("ESP8266" : String) ≠ "Any" ∧
    (searchRun "COM3" "ESP8266"
        (Except.ok ("ESP32-S3 (revision v0.1)", [1, 2, 3, 4, 5, 6]))).found = none ∧
    (searchRun "COM3" "ESP8266"
        (Except.ok ("ESP32-S3 (revision v0.1)", [1, 2, 3, 4, 5, 6]))).progress =
      ["Found non-matching ESP device: " ++
        chipInfoStr "COM3" "ESP32-S3 (revision v0.1)" [1, 2, 3, 4, 5, 6]] := by
  refine ⟨by decide, ?_, ?_⟩
  · exact ((c6_search_filter "COM3" "ESP8266" _ (by decide)).2 _ _ rfl (by decide)).1
  · exact ((c6_search_filter "COM3" "ESP8266" _ (by decide)).2 _ _ rfl (by decide)).2

/-- A task's planned triple never contains the hard reset. -/
lemma hardReset_not_mem_planned (fs : String → Option (List Nat))
    (size mode freq : String) (t : FlashTask) :
    Call.hardReset ∉ plannedCalls fs size mode freq t := by
  unfold plannedCalls
  rcases parseHexInt t.address with _ | a <;> rcases fs t.bin_path with _ | b <;> simp

/-- The task loop over a block of successful tasks contributes their
headers-and-step messages and their planned triples, then continues. -/
lemma runTasks_ok_append (dev : Device) (fs : String → Option (List Nat))
    (size mode freq : String) (pre : List FlashTask) :
    ∀ (idx : Nat) (rest : List FlashTask),
      (∀ u ∈ pre, taskOk dev fs size mode freq u) →
      runTasks dev fs size mode freq idx (pre ++ rest) =
        (okProgress idx pre ++ (runTasks dev fs size mode freq (idx + pre.length) rest).1,
         pre.flatMap (plannedCalls fs size mode freq) ++
           (runTasks dev fs size mode freq (idx + pre.length) rest).2.1,
         (runTasks dev fs size mode freq (idx + pre.length) rest).2.2) := by
  induction pre with
  | nil => intro idx rest _; simp [okProgress]
  | cons u pre ih =>
    intro idx rest h
    obtain ⟨a, b, hp, hf, he, hw, hv⟩ := h u (List.mem_cons_self u pre)
    have hrest := ih (idx + 1) rest (fun x hx => h x (List.mem_cons_of_mem u hx))
    have hidx : idx + 1 + pre.length = idx + (pre.length + 1) := by omega
    rw [hidx] at hrest
    simp only [List.cons_append, runTasks, hp, hf, he, hw, hv, List.append_eq, hrest,
      okProgress, List.flatMap_cons, List.length_cons, plannedCalls]
    simp [List.append_assoc]

/-- With every task successful, the planned triples contribute three calls
per task. -/
lemma flatMap_planned_length (dev : Device) (fs : String → Option (List Nat))
    (size mode freq : String) :
    ∀ tasks : List FlashTask, (∀ t ∈ tasks, taskOk dev fs size mode freq t) →
      (tasks.flatMap (plannedCalls fs size mode freq)).length = 3 * tasks.length := by
  intro tasks
  induction tasks with
  | nil => intro _; simp
  | cons t rest ih =>
    intro h
    obtain ⟨a, b, hp, hf, -⟩ := h t (List.mem_cons_self t rest)
    have hrest := ih (fun x hx => h x (List.mem_cons_of_mem t hx))
    simp only [List.flatMap_cons, List.length_append, List.length_cons, hrest,
      plannedCalls, hp, hf]
    simp
    omega

/-- C1: for every plan of enabled tasks on which detection, connection and
every device step succeed, `FlashWorker.run` of src/src/esptool-gui.py
issues exactly one erase/write/verify triple per task (three calls per
task), in list order with no reordering, followed by exactly one hard
reset — which occurs nowhere among the task calls — and signals
`finished(True, "Success")`. -/
theorem c1_flash_success (dev : Device) (fs : String → Option (List Nat))
    (size mode freq : String) (tasks : List FlashTask) (desc : String)
    (hd : dev.detect = Except.ok desc) (hc : dev.connect = Except.ok ())
    (hr : dev.step Call.hardReset = Except.ok ())
    (ht : ∀ t ∈ tasks, taskOk dev fs size mode freq t) :
    (run dev fs size mode freq tasks).calls =
      tasks.flatMap (plannedCalls fs size mode freq) ++ [Call.hardReset] ∧
    (run dev fs size mode freq tasks).finished = (true, "Success") ∧
    (tasks.flatMap (plannedCalls fs size mode freq)).length = 3 * tasks.length ∧
    Call.hardReset ∉ tasks.flatMap (plannedCalls fs size mode freq) := by
  have hmain := runTasks_ok_append dev fs size mode freq tasks 1 [] ht
  rw [List.append_nil] at hmain
  have hnil : runTasks dev fs size mode freq (1 + tasks.length) [] = ([], [], none) := rfl
  rw [hnil] at hmain
  refine ⟨?_, ?_, flatMap_planned_length dev fs size mode freq tasks ht, ?_⟩
  · simp [run, hd, hc, hmain, hr]
  · simp [run, hd, hc, hmain, hr]
  · intro hmem
    rw [List.mem_flatMap] at hmem
    obtain ⟨t, -, hmem⟩ := hmem
    exact hardReset_not_mem_planned fs size mode freq t hmem

/-- Fully successful device for the C1 witness. -/
def c1Dev : Device :=
  ⟨Except.ok "ESP32-D0WD-V3 (revision v3.1)", Except.ok (), fun _ => Except.ok ()⟩

/-- File system for the C1 witness: a bootloader and an application image. -/
def c1Fs : String → Option (List Nat) := fun s =>
  if s = "bootloader.bin" then some [7, 8]
  else if s = "app.bin" then some [1, 2, 3] else none

/-- Two-task plan for the C1 witness. -/
def c1Tasks : List FlashTask :=
  [⟨"bootloader.bin", "0x1000"⟩, ⟨"app.bin", "0x10000"⟩]

/-- Witness for C1: the two-task scenario issues exactly two triples in
order, then one reset, and reports success. -/
theorem c1_flash_success_witness :
    c1Dev.detect = Except.ok "ESP32-D0WD-V3 (revision v3.1)" ∧
    c1Dev.connect = Except.ok () ∧
    c1Dev.step Call.hardReset = Except.ok () ∧
    (∀ t ∈ c1Tasks, taskOk c1Dev c1Fs "4MB" "dio" "80m" t) ∧
    ((run c1Dev c1Fs "4MB" "dio" "80m" c1Tasks).calls =
        c1Tasks.flatMap (plannedCalls c1Fs "4MB" "dio" "80m") ++ [Call.hardReset] ∧
      (run c1Dev c1Fs "4MB" "dio" "80m" c1Tasks).finished = (true, "Success") ∧
      (c1Tasks.flatMap (plannedCalls c1Fs "4MB" "dio" "80m")).length = 3 * c1Tasks.length ∧
      Call.hardReset ∉ c1Tasks.flatMap (plannedCalls c1Fs "4MB" "dio" "80m")) := by
  have htasks : ∀ t ∈ c1Tasks, taskOk c1Dev c1Fs "4MB" "dio" "80m" t := by
    intro t ht
    simp only [c1Tasks, List.mem_cons, List.not_mem_nil, or_false] at ht
    rcases ht with rfl | rfl
    · exact ⟨4096, [7, 8], by decide, by decide, rfl, rfl, rfl⟩
    · exact ⟨65536, [1, 2, 3], by decide, by decide, rfl, rfl, rfl⟩
  exact ⟨rfl, rfl, rfl, htasks,
    c1_flash_success c1Dev c1Fs "4MB" "dio" "80m" c1Tasks _ rfl rfl rfl htasks⟩

/-- Device for the C2 counterexample: every erase raises. -/
def c2Dev : Device :=
  ⟨Except.ok "ESP32-D0WD-V3 (revision v3.1)", Except.ok (), fun c =>
    match c with
    | Call.eraseRegion _ _ => Except.error "Timed out waiting for packet header"
    | _ => Except.ok ()⟩

/-- C2 counterexample: when task 1's erase step fails, the pipeline reports
failure, but the reported error — `"Error during flashing: " + str(e)` —
contains neither the failing task's index nor its binary path; only the
separately-emitted progress header carries them. -/
theorem c2_counterexample :
    (run c2Dev c1Fs "4MB" "dio" "80m" [⟨"bootloader.bin", "0x1000"⟩]).finished =
      (false, "Error during flashing: Timed out waiting for packet header") ∧
    strContainsSub "Error during flashing: Timed out waiting for packet header"
      "bootloader.bin" = false ∧
    strContainsSub "Error during flashing: Timed out waiting for packet header"
      "1" = false := by
  refine ⟨by decide, by decide, by decide⟩

/-- C2 (amended): if task k (1-indexed) is the first task whose erase,
write, or verify step fails, the pipeline stops inside task k — the call
trace is the k-1 preceding triples plus a prefix of task k's triple, so no
task k+1..N is attempted — and reports failure; the failing task's index
and binary path appear in the progress log (the task-k header emitted
before the attempt), while the reported error carries only the exception
text. -/
theorem c2_failure_aborts (dev : Device) (fs : String → Option (List Nat))
    (size mode freq : String) (pre post : List FlashTask) (t : FlashTask)
    (a : Nat) (b : List Nat) (m desc : String)
    (hd : dev.detect = Except.ok desc) (hc : dev.connect = Except.ok ())
    (hpre : ∀ u ∈ pre, taskOk dev fs size mode freq u)
    (ha : parseHexInt t.address = some a) (hb : fs t.bin_path = some b)
    (hfail :
      dev.step (Call.eraseRegion a b.length) = Except.error m ∨
      (dev.step (Call.eraseRegion a b.length) = Except.ok () ∧
        dev.step (Call.writeFlash a b (pyLower size) mode freq) = Except.error m) ∨
      (dev.step (Call.eraseRegion a b.length) = Except.ok () ∧
        dev.step (Call.writeFlash a b (pyLower size) mode freq) = Except.ok () ∧
        dev.step (Call.verifyFlash a b) = Except.error m)) :
    (run dev fs size mode freq (pre ++ t :: post)).finished =
      (false, "Error during flashing: " ++ m) ∧
    (∃ s u, (run dev fs size mode freq (pre ++ t :: post)).calls =
        pre.flatMap (plannedCalls fs size mode freq) ++ s ∧
        s ++ u = plannedCalls fs size mode freq t) ∧
    taskHeader (pre.length + 1) t ∈ (run dev fs size mode freq (pre ++ t :: post)).progress := by
  have hmain := runTasks_ok_append dev fs size mode freq pre 1 (t :: post) hpre
  have hcomm : pre.length + 1 = 1 + pre.length := by omega
  rcases hfail with he | ⟨he, hw⟩ | ⟨he, hw, hv⟩
  · have hstep : runTasks dev fs size mode freq (1 + pre.length) (t :: post) =
        ([taskHeader (1 + pre.length) t, "Erasing flash region..."],
         [Call.eraseRegion a b.length], some m) := by
      simp [runTasks, ha, hb, he]
    rw [hstep] at hmain
    refine ⟨?_,
      ⟨[Call.eraseRegion a b.length],
       [Call.writeFlash a b (pyLower size) mode freq, Call.verifyFlash a b],
       ?_, ?_⟩, ?_⟩
    · simp [run, hd, hc, hmain]
    · simp [run, hd, hc, hmain]
    · simp [plannedCalls, ha, hb]
    · rw [hcomm]
      simp [run, hd, hc, hmain]
  · have hstep : runTasks dev fs size mode freq (1 + pre.length) (t :: post) =
        ([taskHeader (1 + pre.length) t, "Erasing flash region...", "Writing flash..."],
         [Call.eraseRegion a b.length, Call.writeFlash a b (pyLower size) mode freq],
         some m) := by
      simp [runTasks, ha, hb, he, hw]
    rw [hstep] at hmain
    refine ⟨?_,
      ⟨[Call.eraseRegion a b.length, Call.writeFlash a b (pyLower size) mode freq],
       [Call.verifyFlash a b], ?_, ?_⟩, ?_⟩
    · simp [run, hd, hc, hmain]
    · simp [run, hd, hc, hmain]
    · simp [plannedCalls, ha, hb]
    · rw [hcomm]
      simp [run, hd, hc, hmain]
  · have hstep : runTasks dev fs size mode freq (1 + pre.length) (t :: post) =
        ([taskHeader (1 + pre.length) t, "Erasing flash region...", "Writing flash...",
          "Verifying flash..."],
         [Call.eraseRegion a b.length, Call.writeFlash a b (pyLower size) mode freq,
          Call.verifyFlash a b],
         some m) := by
      simp [runTasks, ha, hb, he, hw, hv]
    rw [hstep] at hmain
    refine ⟨?_,
      ⟨[Call.eraseRegion a b.length, Call.writeFlash a b (pyLower size) mode freq,
        Call.verifyFlash a b], [], ?_, ?_⟩, ?_⟩
    · simp [run, hd, hc, hmain]
    · simp [run, hd, hc, hmain]
    · simp [plannedCalls, ha, hb]
    · rw [hcomm]
      simp [run, hd, hc, hmain]

/-- Witness for C2 (amended): with task 1's erase failing in a two-task
plan, the pipeline reports the bare exception text, issues only task 1's
erase call, and the task-1 header is in the progress log. -/
theorem c2_failure_aborts_witness :
    c2Dev.detect = Except.ok "ESP32-D0WD-V3 (revision v3.1)" ∧
    c2Dev.connect = Except.ok () ∧
    parseHexInt "0x1000" = some 4096 ∧
    c1Fs "bootloader.bin" = some [7, 8] ∧
    c2Dev.step (Call.eraseRegion 4096 2) =
      Except.error "Timed out waiting for packet header" ∧
    ((run c2Dev c1Fs "4MB" "dio" "80m"
        [⟨"bootloader.bin", "0x1000"⟩, ⟨"app.bin", "0x10000"⟩]).finished =
          (false, "Error during flashing: Timed out waiting for packet header") ∧
      (∃ s u, (run c2Dev c1Fs "4MB" "dio" "80m"
          [⟨"bootloader.bin", "0x1000"⟩, ⟨"app.bin", "0x10000"⟩]).calls =
            List.flatMap ([] : List FlashTask) (plannedCalls c1Fs "4MB" "dio" "80m") ++ s ∧
          s ++ u = plannedCalls c1Fs "4MB" "dio" "80m" ⟨"bootloader.bin", "0x1000"⟩) ∧
      taskHeader 1 ⟨"bootloader.bin", "0x1000"⟩ ∈
        (run c2Dev c1Fs "4MB" "dio" "80m"
          [⟨"bootloader.bin", "0x1000"⟩, ⟨"app.bin", "0x10000"⟩]).progress) :=
  ⟨rfl, rfl, by decide, by decide, rfl,
    c2_failure_aborts c2Dev c1Fs "4MB" "dio" "80m" [] [⟨"app.bin", "0x10000"⟩]
      ⟨"bootloader.bin", "0x1000"⟩ 4096 [7, 8]
      "Timed out waiting for packet header" "ESP32-D0WD-V3 (revision v3.1)"
      rfl rfl (by simp) (by decide) (by decide) (Or.inl rfl)⟩

/-- File system for the C4 counterexample: only the App slot's file exists. -/
def c4Fs : String → Option (List Nat) := fun s =>
  if s = "a.bin" then some [7] else none

/-- Fully successful device for the C4 counterexample. -/
def c4Dev : Device := ⟨Except.ok "ESP32", Except.ok (), fun _ => Except.ok ()⟩

/-- C4 counterexample: a plan whose Partition Table file does not exist
passes `start_flashing_adv` validation (which only checks for an empty
field and a "0x" address marker), and the pipeline then performs task 1's
full erase/write/verify before failing on the missing file — device I/O
and partial side effects occur, and the failure is not a pre-I/O
validation error.  (An empty plan is likewise not rejected: the pipeline
would run to success.) -/
theorem c4_counterexample :
    start_flashing_adv "COM3" ⟨"a.bin", "0x1000"⟩ ⟨"b.bin", "0x8000"⟩ ⟨"c.bin", "0x0"⟩ [] =
      Except.ok [⟨"a.bin", "0x1000"⟩, ⟨"b.bin", "0x8000"⟩, ⟨"c.bin", "0x0"⟩] ∧
    (run c4Dev c4Fs "4MB" "dio" "80m"
        [⟨"a.bin", "0x1000"⟩, ⟨"b.bin", "0x8000"⟩, ⟨"c.bin", "0x0"⟩]).calls =
      [Call.eraseRegion 4096 1, Call.writeFlash 4096 [7] "4mb" "dio" "80m",
       Call.verifyFlash 4096 [7]] ∧
    (run c4Dev c4Fs "4MB" "dio" "80m"
        [⟨"a.bin", "0x1000"⟩, ⟨"b.bin", "0x8000"⟩, ⟨"c.bin", "0x0"⟩]).finished =
      (false, "Error during flashing: Firmware file b.bin does not exist!") := by
  refine ⟨rfl, by decide, by decide⟩

/-- Validation of a fixed slot succeeds only with a non-empty stripped
file path and a "0x"-marked address. -/
lemma validateFixed_ok (name : String) (s : FixedSlot) (t : FlashTask)
    (h : validateFixed name s = Except.ok t) :
    pyStrip s.file_edit ≠ "" ∧ pyStartsWith (pyStrip s.addr_edit) "0x" = true := by
  unfold validateFixed at h
  by_cases h1 : pyStrip s.file_edit = ""
  · simp [h1] at h
  · by_cases h2 : pyStartsWith (pyStrip s.addr_edit) "0x" = true
    · exact ⟨h1, h2⟩
    · rw [Bool.not_eq_true] at h2
      simp [h1, h2] at h

/-- Validation of the extra slots succeeds only when every enabled slot
has a non-empty stripped file path and a "0x"-marked address. -/
lemma validateExtras_ok :
    ∀ (ws : List ExtraSlot) (idx : Nat) (ts : List FlashTask),
      validateExtras idx ws = Except.ok ts →
      ∀ w ∈ ws, w.enabled = true →
        pyStrip w.file_edit ≠ "" ∧ pyStartsWith (pyStrip w.addr_edit) "0x" = true := by
  intro ws
  induction ws with
  | nil => intro idx ts _ w hw; simp at hw
  | cons w0 rest ih =>
    intro idx ts h w hw hen
    rcases List.mem_cons.mp hw with rfl | hmem
    · rw [validateExtras, if_pos hen] at h
      by_cases h1 : pyStrip w.file_edit = ""
      · simp [h1] at h
      · by_cases h2 : pyStartsWith (pyStrip w.addr_edit) "0x" = true
        · exact ⟨h1, h2⟩
        · rw [Bool.not_eq_true] at h2
          simp [h1, h2] at h
    · rw [validateExtras] at h
      by_cases hen0 : w0.enabled = true
      · rw [if_pos hen0] at h
        by_cases h1 : pyStrip w0.file_edit = ""
        · simp [h1] at h
        · by_cases h2 : pyStartsWith (pyStrip w0.addr_edit) "0x" = true
          · rw [if_neg (by simpa using h1), if_neg (by simp [h2])] at h
            cases hrest : validateExtras (idx + 1) rest with
            | error e => rw [hrest] at h; simp at h
            | ok ts0 => exact ih (idx + 1) ts0 hrest w hmem hen
          · rw [Bool.not_eq_true] at h2
            simp [h1, h2] at h
      · rw [if_neg hen0] at h
        exact ih (idx + 1) ts h w hmem hen

/-- C4 (amended): whenever `start_flashing_adv` hands a task list to the
pipeline, every checked precondition held — a selected device, a non-empty
stripped file path in each fixed slot and each enabled extra slot, and
addresses starting with "0x" — and the checks themselves consult no
device.  File existence and full address parseability are checked only
inside the pipeline, after connecting and after earlier tasks' I/O, and an
empty plan is not rejected. -/
theorem c4_validation_soundness (portText : String)
    (app partTable boot : FixedSlot) (extras : List ExtraSlot)
    (ts : List FlashTask)
    (h : start_flashing_adv portText app partTable boot extras = Except.ok ts) :
    portText ≠ "" ∧
    (∀ s ∈ [app, partTable, boot],
        pyStrip s.file_edit ≠ "" ∧ pyStartsWith (pyStrip s.addr_edit) "0x" = true) ∧
    (∀ w ∈ extras, w.enabled = true →
        pyStrip w.file_edit ≠ "" ∧ pyStartsWith (pyStrip w.addr_edit) "0x" = true) := by
  unfold start_flashing_adv at h
  by_cases hport : portText = ""
  · simp [hport] at h
  · rw [if_neg hport] at h
    cases h1 : validateFixed "App" app with
    | error e => rw [h1] at h; simp at h
    | ok t1 =>
      cases h2 : validateFixed "Partition Table" partTable with
      | error e => rw [h1, h2] at h; simp at h
      | ok t2 =>
        cases h3 : validateFixed "Bootloader" boot with
        | error e => rw [h1, h2, h3] at h; simp at h
        | ok t3 =>
          cases h4 : validateExtras 4 extras with
          | error e => rw [h1, h2, h3, h4] at h; simp at h
          | ok more =>
            refine ⟨hport, ?_, validateExtras_ok extras 4 more h4⟩
            intro s hs
            rcases List.mem_cons.mp hs with rfl | hs
            · exact validateFixed_ok _ _ _ h1
            rcases List.mem_cons.mp hs with rfl | hs
            · exact validateFixed_ok _ _ _ h2
            rcases List.mem_cons.mp hs with rfl | hs
            · exact validateFixed_ok _ _ _ h3
            · simp at hs

/-- Witness for C4 (amended): a fully validated configuration with one
enabled and one disabled extra slot yields its task list, and the checked
preconditions hold. -/
theorem c4_validation_soundness_witness :
    start_flashing_adv "COM3" ⟨"a.bin", "0x1000"⟩ ⟨"b.bin", "0x8000"⟩ ⟨"c.bin", "0x0"⟩
        [⟨false, "", ""⟩, ⟨true, "d.bin", "0xF000"⟩] =
      Except.ok [⟨"a.bin", "0x1000"⟩, ⟨"b.bin", "0x8000"⟩, ⟨"c.bin", "0x0"⟩,
        ⟨"d.bin", "0xF000"⟩] ∧
    (("COM3" : String) ≠ "" ∧
      (∀ s ∈ [(⟨"a.bin", "0x1000"⟩ : FixedSlot), ⟨"b.bin", "0x8000"⟩, ⟨"c.bin", "0x0"⟩],
          pyStrip s.file_edit ≠ "" ∧ pyStartsWith (pyStrip s.addr_edit) "0x" = true) ∧
      (∀ w ∈ [(⟨false, "", ""⟩ : ExtraSlot), ⟨true, "d.bin", "0xF000"⟩],
          w.enabled = true →
            pyStrip w.file_edit ≠ "" ∧ pyStartsWith (pyStrip w.addr_edit) "0x" = true)) :=
  ⟨rfl, c4_validation_soundness "COM3" ⟨"a.bin", "0x1000"⟩ ⟨"b.bin", "0x8000"⟩
    ⟨"c.bin", "0x0"⟩ [⟨false, "", ""⟩, ⟨true, "d.bin", "0xF000"⟩] _ rfl⟩
